import Mathlib

/-!
# Verification of `timer_app.py` (desktop timer & stopwatch)

Shallow embedding of the single-file tkinter application: a countdown
timer and a stopwatch sharing one window, selected by a mode toggle.
The GUI state that the logic reads or writes (the two integer counters,
the running flags, the pending-callback slots, the entry text, the
labels, the display string) is carried in an explicit `AppState`
record; widget updates become field updates, `messagebox.showerror`
becomes an append to an error log, and `notify_finished` increments a
notification counter.  Each Python method becomes a pure state
transformer translated line by line from the source.
-/

namespace TimerApp

/-- Python `str.strip()`: drop whitespace from both ends.  (CPython
also strips `\v`, `\f` and Unicode whitespace; `Char.isWhitespace`
covers space, tab, CR and LF, which suffices for every input treated
here.) -/
def pyStrip (s : List Char) : List Char :=
  ((s.dropWhile Char.isWhitespace).reverse.dropWhile Char.isWhitespace).reverse

/-- Python `str.split(sep)` for a one-character separator: fields
between occurrences of `sep`, empty fields kept, `[""]` on the empty
string. -/
def pySplitOn (sep : Char) : List Char → List (List Char)
  | [] => [[]]
  | c :: cs =>
    if c = sep then [] :: pySplitOn sep cs
    else
      match pySplitOn sep cs with
      | [] => [[c]]
      | h :: t => (c :: h) :: t

/-- Accumulating digit run of `int()`: fails on the first non-digit. -/
def pyIntDigits (acc : Nat) : List Char → Option Nat
  | [] => some acc
  | c :: cs => if c.isDigit then pyIntDigits (acc * 10 + (c.toNat - 48)) cs else none

/-- A non-empty all-digit run read as a natural number. -/
def pyIntNat : List Char → Option Nat
  | [] => none
  | cs => pyIntDigits 0 cs

/--
Model of Python `int(str)`: strip whitespace, optional single `+`/`-`
sign, then a non-empty run of decimal digits.  (Digit-group
underscores and non-ASCII digits, which CPython also accepts, are not
modelled; no input treated here uses them.)  `none` models the
`ValueError` that `int` raises on a malformed literal.
-/
def pyInt (s : List Char) : Option Int :=
  match pyStrip s with
  | '-' :: cs => (pyIntNat cs).map fun n => -(n : Int)
  | '+' :: cs => (pyIntNat cs).map fun n => (n : Int)
  | cs => (pyIntNat cs).map fun n => (n : Int)

/-- The two values the `mode` radio buttons can select (`tk.StringVar`
restricted to `"timer"` / `"stopwatch"`). -/
inductive Mode where
  | timer
  | stopwatch
deriving DecidableEq, Repr

/-- The mutable state of the `TimerApp` object, plus observation
fields (`notifications`, `error_log`) recording the side effects of
`notify_finished` and `messagebox.showerror`.  `timer_job` /
`stopwatch_job` model whether `self.timer_job` / `self.stopwatch_job`
holds a live `after` callback id. -/
structure AppState where
  timer_seconds : Int
  timer_running : Bool
  timer_job : Bool
  stopwatch_seconds : Int
  stopwatch_running : Bool
  stopwatch_job : Bool
  mode : Mode
  entry : String
  entry_enabled : Bool
  input_label : String
  display : String
  notifications : Nat
  error_log : List String
deriving DecidableEq, Repr

/-- `%02d`: decimal rendering zero-padded on the left to width two. -/
def pad2 (n : Nat) : String :=
  if n < 10 then "0" ++ toString n else toString n

/-- The body of `update_display` after the counter is chosen:
`total = max(total, 0)`, then `hours, rem = divmod(total, 3600)` and
`minutes, seconds = divmod(rem, 60)`, rendered `HH:MM:SS`. -/
def render_hms (total : Int) : String :=
  pad2 ((max total 0).toNat / 3600) ++ ":" ++
  pad2 ((max total 0).toNat % 3600 / 60) ++ ":" ++
  pad2 ((max total 0).toNat % 3600 % 60)

/-- `update_display`: pick the counter named by the current mode and
write its `HH:MM:SS` rendering to the display label. -/
def update_display (s : AppState) : AppState :=
  { s with display :=
      render_hms (if s.mode = Mode.timer then s.timer_seconds else s.stopwatch_seconds) }

/-- `switch_mode`: relabel the input row, enable or disable the entry,
and refresh the display; nothing else is touched. -/
def switch_mode (s : AppState) : AppState :=
  if s.mode = Mode.timer then
    update_display { s with
      input_label := "Time (MM:SS or minutes, or HH:MM:SS):",
      entry_enabled := true }
  else
    update_display { s with
      input_label := "Stopwatch (press Start to begin):",
      entry_enabled := false }

/-- A radio button press: set `self.mode`, then run its
`command=self.switch_mode` callback. -/
def select_mode (m : Mode) (s : AppState) : AppState :=
  switch_mode { s with mode := m }

/-- `parse_time_input`: read the entry text, strip it, split on `":"`,
and interpret one part as minutes, two parts as `MM:SS`, three parts
as `HH:MM:SS`.  `Except.error` models the raised `ValueError`
(including the one `int()` itself raises on a bad literal).  The
source error messages use an en dash in `0-59`; a hyphen stands in for
it here. -/
def parse_time_input (entry : String) : Except String Int :=
  if pyStrip entry.data = [] then Except.error "Empty time input"
  else
    match pySplitOn ':' (pyStrip entry.data) with
    | [p0] =>
      match pyInt p0 with
      | none => Except.error "invalid literal for int with base 10"
      | some minutes =>
        if minutes < 0 then Except.error "Minutes must be >= 0"
        else Except.ok (minutes * 60)
    | [p0, p1] =>
      match pyInt p0 with
      | none => Except.error "invalid literal for int with base 10"
      | some minutes =>
        match pyInt p1 with
        | none => Except.error "invalid literal for int with base 10"
        | some seconds =>
          if minutes < 0 ∨ ¬(0 ≤ seconds ∧ seconds < 60) then
            Except.error "Minutes must be >= 0 and seconds between 0-59"
          else Except.ok (minutes * 60 + seconds)
    | [p0, p1, p2] =>
      match pyInt p0 with
      | none => Except.error "invalid literal for int with base 10"
      | some hours =>
        match pyInt p1 with
        | none => Except.error "invalid literal for int with base 10"
        | some minutes =>
          match pyInt p2 with
          | none => Except.error "invalid literal for int with base 10"
          | some seconds =>
            if hours < 0 ∨ ¬(0 ≤ minutes ∧ minutes < 60) ∨ ¬(0 ≤ seconds ∧ seconds < 60) then
              Except.error "Hours must be >= 0; minutes, seconds between 0-59"
            else Except.ok (hours * 3600 + minutes * 60 + seconds)
    | _ => Except.error "Invalid format; use M, MM:SS, or HH:MM:SS"

/-- `schedule_timer_tick`: `self.timer_job = self.root.after(1000, ...)`;
a pending callback now exists. -/
def schedule_timer_tick (s : AppState) : AppState :=
  { s with timer_job := true }

/-- `schedule_stopwatch_tick`. -/
def schedule_stopwatch_tick (s : AppState) : AppState :=
  { s with stopwatch_job := true }

/-- `notify_finished`: bell, best-effort OS notification, popup; the
only state-visible effect recorded is that one completion notification
fired. -/
def notify_finished (s : AppState) : AppState :=
  { s with notifications := s.notifications + 1 }

/-- The tail of `start_timer` after the parse block: a zero (or
negative) duration returns without starting; otherwise set the running
flag, refresh the display, schedule a tick. -/
def start_timer_go (s : AppState) : AppState :=
  if s.timer_seconds ≤ 0 then s
  else schedule_timer_tick (update_display { s with timer_running := true })

/-- `start_timer`: no-op while running; parse the entry only when the
counter is `<= 0`, reporting a `ValueError` via the error box and
returning with the counter untouched; then fall through to
`start_timer_go`. -/
def start_timer (s : AppState) : AppState :=
  if s.timer_running then s
  else if s.timer_seconds ≤ 0 then
    match parse_time_input s.entry with
    | Except.error msg => { s with error_log := s.error_log ++ [msg] }
    | Except.ok v => start_timer_go { s with timer_seconds := v }
  else start_timer_go s

/-- `tick_timer`: ignore a stale callback when not running; decrement;
at `<= 0` clamp to zero, stop, refresh the display and notify; else
refresh and reschedule.  (The source decrements in place and then
tests `self.timer_seconds <= 0`; the decremented value is inlined
here.) -/
def tick_timer (s : AppState) : AppState :=
  if s.timer_running = false then s
  else if s.timer_seconds - 1 ≤ 0 then
    notify_finished (update_display
      { s with timer_seconds := 0, timer_running := false })
  else schedule_timer_tick (update_display { s with timer_seconds := s.timer_seconds - 1 })

/-- `pause_timer`: only when running, clear the flag and cancel the
pending callback (the `after_cancel` is wrapped in try/except and the
job slot set to `None`). -/
def pause_timer (s : AppState) : AppState :=
  if s.timer_running then { s with timer_running := false, timer_job := false }
  else s

/-- `reset_timer`: pause, zero the counter, refresh the display only
when timer mode is active (`pause_timer` never touches `mode`, so the
mode test reads `s.mode`). -/
def reset_timer (s : AppState) : AppState :=
  if s.mode = Mode.timer then update_display { pause_timer s with timer_seconds := 0 }
  else { pause_timer s with timer_seconds := 0 }

/-- `start_stopwatch`: no-op while running; else set the flag, refresh,
schedule. -/
def start_stopwatch (s : AppState) : AppState :=
  if s.stopwatch_running then s
  else schedule_stopwatch_tick (update_display { s with stopwatch_running := true })

/-- `tick_stopwatch`: ignore a stale callback when not running; else
increment, refresh, reschedule. -/
def tick_stopwatch (s : AppState) : AppState :=
  if s.stopwatch_running = false then s
  else schedule_stopwatch_tick (update_display
    { s with stopwatch_seconds := s.stopwatch_seconds + 1 })

/-- `pause_stopwatch`. -/
def pause_stopwatch (s : AppState) : AppState :=
  if s.stopwatch_running then
    { s with stopwatch_running := false, stopwatch_job := false }
  else s

/-- `reset_stopwatch`: pause, zero, refresh only when stopwatch mode is
active. -/
def reset_stopwatch (s : AppState) : AppState :=
  if s.mode = Mode.stopwatch then
    update_display { pause_stopwatch s with stopwatch_seconds := 0 }
  else { pause_stopwatch s with stopwatch_seconds := 0 }

/-- The Start button: dispatch on the current mode. -/
def start (s : AppState) : AppState :=
  if s.mode = Mode.timer then start_timer s else start_stopwatch s

/-- The Pause button. -/
def pause (s : AppState) : AppState :=
  if s.mode = Mode.timer then pause_timer s else pause_stopwatch s

/-- The Reset button. -/
def reset (s : AppState) : AppState :=
  if s.mode = Mode.timer then reset_timer s else reset_stopwatch s

/-- The state built by `__init__`: zeroed counters, timer mode, the
default `"25"` in the entry, `"00:00:00"` on the display, then the
initial `switch_mode` call. -/
def init_state : AppState :=
  switch_mode
    { timer_seconds := 0
      timer_running := false
      timer_job := false
      stopwatch_seconds := 0
      stopwatch_running := false
      stopwatch_job := false
      mode := Mode.timer
      entry := "25"
      entry_enabled := true
      input_label := "Time (MM:SS or minutes, or HH:MM:SS):"
      display := "00:00:00"
      notifications := 0
      error_log := [] }

/-- The events the event loop can deliver: the three buttons, a mode
selection, the user editing the entry text, and the two scheduled
callbacks firing. -/
inductive Event where
  | pressStart
  | pressPause
  | pressReset
  | selectMode : Mode → Event
  | setEntry : String → Event
  | timerTick
  | stopwatchTick

/-- One event-loop step. -/
def step : Event → AppState → AppState
  | Event.pressStart, s => start s
  | Event.pressPause, s => pause s
  | Event.pressReset, s => reset s
  | Event.selectMode m, s => select_mode m s
  | Event.setEntry t, s => { s with entry := t }
  | Event.timerTick, s => tick_timer s
  | Event.stopwatchTick, s => tick_stopwatch s

/-- States the application can actually be in: `init_state` and
anything the event loop can produce from it. -/
inductive Reachable : AppState → Prop where
  | init : Reachable init_state
  | next : ∀ {s : AppState} (e : Event), Reachable s → Reachable (step e s)

/-- The countdown invariant: the counter is never negative, and while
the running flag is set it is at least one. -/
def TimerInv (s : AppState) : Prop :=
  0 ≤ s.timer_seconds ∧ (s.timer_running = true → 1 ≤ s.timer_seconds)

/-! ## Behaviour of the parser on each accepted and rejected shape -/

theorem parse_single_ok (t : String) (a : List Char) (m : Int)
    (hne : pyStrip t.data ≠ []) (hsplit : pySplitOn ':' (pyStrip t.data) = [a])
    (hp : pyInt a = some m) (hm : 0 ≤ m) :
    parse_time_input t = Except.ok (m * 60) := by
  unfold parse_time_input
  rw [if_neg hne, hsplit]
  dsimp only
  rw [hp]
  dsimp only
  rw [if_neg (by omega)]

theorem parse_single_reject (t : String) (a : List Char) (m : Int)
    (hne : pyStrip t.data ≠ []) (hsplit : pySplitOn ':' (pyStrip t.data) = [a])
    (hp : pyInt a = some m) (hm : m < 0) :
    parse_time_input t = Except.error "Minutes must be >= 0" := by
  unfold parse_time_input
  rw [if_neg hne, hsplit]
  dsimp only
  rw [hp]
  dsimp only
  rw [if_pos hm]

theorem parse_pair_ok (t : String) (a b : List Char) (m sec : Int)
    (hne : pyStrip t.data ≠ []) (hsplit : pySplitOn ':' (pyStrip t.data) = [a, b])
    (hpa : pyInt a = some m) (hpb : pyInt b = some sec)
    (hm : 0 ≤ m) (hs0 : 0 ≤ sec) (hs : sec < 60) :
    parse_time_input t = Except.ok (m * 60 + sec) := by
  unfold parse_time_input
  rw [if_neg hne, hsplit]
  dsimp only
  rw [hpa]
  dsimp only
  rw [hpb]
  dsimp only
  rw [if_neg (by omega)]

theorem parse_pair_reject (t : String) (a b : List Char) (m sec : Int)
    (hne : pyStrip t.data ≠ []) (hsplit : pySplitOn ':' (pyStrip t.data) = [a, b])
    (hpa : pyInt a = some m) (hpb : pyInt b = some sec)
    (hbad : m < 0 ∨ ¬(0 ≤ sec ∧ sec < 60)) :
    parse_time_input t = Except.error "Minutes must be >= 0 and seconds between 0-59" := by
  unfold parse_time_input
  rw [if_neg hne, hsplit]
  dsimp only
  rw [hpa]
  dsimp only
  rw [hpb]
  dsimp only
  rw [if_pos hbad]

theorem parse_triple_ok (t : String) (a b c : List Char) (hh mm ss : Int)
    (hne : pyStrip t.data ≠ []) (hsplit : pySplitOn ':' (pyStrip t.data) = [a, b, c])
    (hpa : pyInt a = some hh) (hpb : pyInt b = some mm) (hpc : pyInt c = some ss)
    (hh0 : 0 ≤ hh) (hm0 : 0 ≤ mm) (hm1 : mm < 60) (hs0 : 0 ≤ ss) (hs1 : ss < 60) :
    parse_time_input t = Except.ok (hh * 3600 + mm * 60 + ss) := by
  unfold parse_time_input
  rw [if_neg hne, hsplit]
  dsimp only
  rw [hpa]
  dsimp only
  rw [hpb]
  dsimp only
  rw [hpc]
  dsimp only
  rw [if_neg (by omega)]

theorem parse_triple_reject (t : String) (a b c : List Char) (hh mm ss : Int)
    (hne : pyStrip t.data ≠ []) (hsplit : pySplitOn ':' (pyStrip t.data) = [a, b, c])
    (hpa : pyInt a = some hh) (hpb : pyInt b = some mm) (hpc : pyInt c = some ss)
    (hbad : hh < 0 ∨ ¬(0 ≤ mm ∧ mm < 60) ∨ ¬(0 ≤ ss ∧ ss < 60)) :
    parse_time_input t = Except.error "Hours must be >= 0; minutes, seconds between 0-59" := by
  unfold parse_time_input
  rw [if_neg hne, hsplit]
  dsimp only
  rw [hpa]
  dsimp only
  rw [hpb]
  dsimp only
  rw [hpc]
  dsimp only
  rw [if_pos hbad]

/-- Every value the parser accepts is a non-negative second count. -/
theorem parse_ok_nonneg (t : String) (v : Int)
    (h : parse_time_input t = Except.ok v) : 0 ≤ v := by
  unfold parse_time_input at h
  repeat' split at h
  all_goals first
    | exact (Except.noConfusion h)
    | (injection h with h; omega)

theorem parse_many_reject (t : String) (ps : List (List Char))
    (hne : pyStrip t.data ≠ []) (hsplit : pySplitOn ':' (pyStrip t.data) = ps)
    (hlen : 4 ≤ ps.length) :
    parse_time_input t = Except.error "Invalid format; use M, MM:SS, or HH:MM:SS" := by
  unfold parse_time_input
  rw [if_neg hne, hsplit]
  rcases ps with _ | ⟨a, ps⟩
  · simp at hlen
  rcases ps with _ | ⟨b, ps⟩
  · simp at hlen
  rcases ps with _ | ⟨c, ps⟩
  · simp at hlen
  rcases ps with _ | ⟨d, ps⟩
  · simp at hlen
  rfl

/-- Splitting never returns the empty list of fields. -/
theorem pySplitOn_ne_nil (sep : Char) (s : List Char) : pySplitOn sep s ≠ [] := by
  cases s with
  | nil => simp [pySplitOn]
  | cons c cs =>
    unfold pySplitOn
    split
    · simp
    · split <;> simp

/-- The format error is raised exactly on (non-empty) inputs with four
or more colon-separated fields: inputs with one, two or three fields
either succeed or raise one of the other, value-specific errors. -/
theorem parse_format_error_iff (t : String) :
    parse_time_input t = Except.error "Invalid format; use M, MM:SS, or HH:MM:SS" ↔
    (pyStrip t.data ≠ [] ∧ 4 ≤ (pySplitOn ':' (pyStrip t.data)).length) := by
  constructor
  · intro h
    by_cases hne : pyStrip t.data = []
    · exfalso
      unfold parse_time_input at h
      rw [if_pos hne] at h
      injection h with h2
      exact absurd h2 (by decide)
    · refine ⟨hne, ?_⟩
      by_contra hlen
      push_neg at hlen
      unfold parse_time_input at h
      rw [if_neg hne] at h
      rcases hsp : pySplitOn ':' (pyStrip t.data) with _ | ⟨a, _ | ⟨b, _ | ⟨c, _ | ⟨d, rest⟩⟩⟩⟩
      · exact absurd hsp (pySplitOn_ne_nil _ _)
      · rw [hsp] at h
        dsimp only at h
        repeat' split at h
        all_goals first
          | exact Except.noConfusion h
          | (injection h with h2; exact absurd h2 (by decide))
      · rw [hsp] at h
        dsimp only at h
        repeat' split at h
        all_goals first
          | exact Except.noConfusion h
          | (injection h with h2; exact absurd h2 (by decide))
      · rw [hsp] at h
        dsimp only at h
        repeat' split at h
        all_goals first
          | exact Except.noConfusion h
          | (injection h with h2; exact absurd h2 (by decide))
      · rw [hsp] at hlen
        simp only [List.length_cons] at hlen
        omega
  · rintro ⟨hne, hlen⟩
    exact parse_many_reject t _ hne rfl hlen

/-- Claim C1: the time-input parser returns total whole seconds for
each accepted form (a plain integer read as `m` yields `m * 60`, so
`"25"` yields `1500`; `"MM:SS"` yields `m * 60 + s`, so `"02:30"`
yields `150`; `"HH:MM:SS"` yields `h * 3600 + m * 60 + s`, so
`"01:02:03"` yields `3723`), and it raises an error for empty input,
for any negative component, and for a seconds field of `60` or more. -/
theorem C1_parse_total_seconds :
    (∀ (t : String) (a : List Char) (m : Int),
       pyStrip t.data ≠ [] → pySplitOn ':' (pyStrip t.data) = [a] →
       pyInt a = some m → 0 ≤ m →
       parse_time_input t = Except.ok (m * 60))
  ∧ (∀ (t : String) (a b : List Char) (m sec : Int),
       pyStrip t.data ≠ [] → pySplitOn ':' (pyStrip t.data) = [a, b] →
       pyInt a = some m → pyInt b = some sec → 0 ≤ m → 0 ≤ sec → sec < 60 →
       parse_time_input t = Except.ok (m * 60 + sec))
  ∧ (∀ (t : String) (a b c : List Char) (hh mm ss : Int),
       pyStrip t.data ≠ [] → pySplitOn ':' (pyStrip t.data) = [a, b, c] →
       pyInt a = some hh → pyInt b = some mm → pyInt c = some ss →
       0 ≤ hh → 0 ≤ mm → mm < 60 → 0 ≤ ss → ss < 60 →
       parse_time_input t = Except.ok (hh * 3600 + mm * 60 + ss))
  ∧ parse_time_input "25" = Except.ok 1500
  ∧ parse_time_input "02:30" = Except.ok 150
  ∧ parse_time_input "01:02:03" = Except.ok 3723
  ∧ parse_time_input "" = Except.error "Empty time input"
  ∧ parse_time_input "-1" = Except.error "Minutes must be >= 0"
  ∧ (∀ (t : String) (a : List Char) (m : Int),
       pyStrip t.data ≠ [] → pySplitOn ':' (pyStrip t.data) = [a] →
       pyInt a = some m → m < 0 →
       parse_time_input t = Except.error "Minutes must be >= 0")
  ∧ (∀ (t : String) (a b : List Char) (m sec : Int),
       pyStrip t.data ≠ [] → pySplitOn ':' (pyStrip t.data) = [a, b] →
       pyInt a = some m → pyInt b = some sec → (m < 0 ∨ sec < 0 ∨ 60 ≤ sec) →
       parse_time_input t = Except.error "Minutes must be >= 0 and seconds between 0-59")
  ∧ (∀ (t : String) (a b c : List Char) (hh mm ss : Int),
       pyStrip t.data ≠ [] → pySplitOn ':' (pyStrip t.data) = [a, b, c] →
       pyInt a = some hh → pyInt b = some mm → pyInt c = some ss →
       (hh < 0 ∨ mm < 0 ∨ ss < 0 ∨ 60 ≤ ss) →
       parse_time_input t = Except.error "Hours must be >= 0; minutes, seconds between 0-59")
  ∧ parse_time_input "00:70" = Except.error "Minutes must be >= 0 and seconds between 0-59" := by
  refine ⟨parse_single_ok, parse_pair_ok, parse_triple_ok,
    rfl, rfl, rfl, rfl, rfl, parse_single_reject, ?_, ?_, rfl⟩
  · intro t a b m sec hne hsplit hpa hpb hbad
    exact parse_pair_reject t a b m sec hne hsplit hpa hpb (by omega)
  · intro t a b c hh mm ss hne hsplit hpa hpb hpc hbad
    exact parse_triple_reject t a b c hh mm ss hne hsplit hpa hpb hpc (by omega)

/-- Witness for C1: the general clauses applied at concrete inputs. -/
theorem C1_parse_total_seconds_witness :
    parse_time_input "7" = Except.ok 420
  ∧ parse_time_input "03:09" = Except.ok 189
  ∧ parse_time_input "02:03:04" = Except.ok 7384
  ∧ parse_time_input "-2" = Except.error "Minutes must be >= 0"
  ∧ parse_time_input "1:-1" = Except.error "Minutes must be >= 0 and seconds between 0-59"
  ∧ parse_time_input "1:2:99" = Except.error "Hours must be >= 0; minutes, seconds between 0-59" := by
  have h := C1_parse_total_seconds
  refine ⟨h.1 "7" (['7']) 7 (by decide) (by decide) (by decide) (by decide),
    h.2.1 "03:09" (['0', '3']) (['0', '9']) 3 9 (by decide) (by decide)
      (by decide) (by decide) (by decide) (by decide) (by decide),
    h.2.2.1 "02:03:04" (['0', '2']) (['0', '3']) (['0', '4']) 2 3 4 (by decide)
      (by decide) (by decide) (by decide) (by decide) (by decide) (by decide)
      (by decide) (by decide) (by decide),
    h.2.2.2.2.2.2.2.2.1 "-2" (['-', '2']) (-2) (by decide) (by decide)
      (by decide) (by decide),
    h.2.2.2.2.2.2.2.2.2.1 "1:-1" (['1']) (['-', '1']) 1 (-1) (by decide)
      (by decide) (by decide) (by decide) (by omega),
    h.2.2.2.2.2.2.2.2.2.2.1 "1:2:99" (['1']) (['2']) (['9', '9']) 1 2 99
      (by decide) (by decide) (by decide) (by decide) (by decide) (by omega)⟩

/-- Counterexample for C2: `"90:00"` is an `"MM:SS"` input whose
minute field, `90`, lies outside `0`–`59`, yet the parser accepts it
and returns `5400` instead of signaling an input error. -/
theorem C2_counterexample :
    pySplitOn ':' (pyStrip "90:00".data) = [['9', '0'], ['0', '0']]
  ∧ pyInt (['9', '0']) = some 90
  ∧ parse_time_input "90:00" = Except.ok 5400 :=
  ⟨by decide, by decide, rfl⟩

/-- Claim C2 (amended): only in the `"HH:MM:SS"` form is a minute
field outside `0`–`59` rejected; in the `"MM:SS"` form the minutes
field may be any non-negative value (`60` or more is accepted) and
only negative minutes are rejected; empty input and every negative
component (plain minutes; `"MM:SS"` minutes or seconds; `"HH:MM:SS"`
hours, minutes or seconds) are rejected, each with a descriptive
input-error message. -/
theorem C2_minute_range_amended :
    (∀ (t : String) (a b c : List Char) (hh mm ss : Int),
       pyStrip t.data ≠ [] → pySplitOn ':' (pyStrip t.data) = [a, b, c] →
       pyInt a = some hh → pyInt b = some mm → pyInt c = some ss →
       (mm < 0 ∨ 60 ≤ mm) →
       parse_time_input t = Except.error "Hours must be >= 0; minutes, seconds between 0-59")
  ∧ (∀ (t : String) (a b : List Char) (m sec : Int),
       pyStrip t.data ≠ [] → pySplitOn ':' (pyStrip t.data) = [a, b] →
       pyInt a = some m → pyInt b = some sec → 0 ≤ m → 0 ≤ sec → sec < 60 →
       parse_time_input t = Except.ok (m * 60 + sec))
  ∧ (∀ (t : String) (a : List Char) (m : Int),
       pyStrip t.data ≠ [] → pySplitOn ':' (pyStrip t.data) = [a] →
       pyInt a = some m → m < 0 →
       parse_time_input t = Except.error "Minutes must be >= 0")
  ∧ (∀ (t : String) (a b : List Char) (m sec : Int),
       pyStrip t.data ≠ [] → pySplitOn ':' (pyStrip t.data) = [a, b] →
       pyInt a = some m → pyInt b = some sec → (m < 0 ∨ sec < 0) →
       parse_time_input t = Except.error "Minutes must be >= 0 and seconds between 0-59")
  ∧ (∀ (t : String) (a b c : List Char) (hh mm ss : Int),
       pyStrip t.data ≠ [] → pySplitOn ':' (pyStrip t.data) = [a, b, c] →
       pyInt a = some hh → pyInt b = some mm → pyInt c = some ss →
       (hh < 0 ∨ mm < 0 ∨ ss < 0) →
       parse_time_input t = Except.error "Hours must be >= 0; minutes, seconds between 0-59")
  ∧ parse_time_input "" = Except.error "Empty time input" := by
  refine ⟨?_, parse_pair_ok, parse_single_reject, ?_, ?_, rfl⟩
  · intro t a b c hh mm ss hne hsplit hpa hpb hpc hbad
    exact parse_triple_reject t a b c hh mm ss hne hsplit hpa hpb hpc (by omega)
  · intro t a b m sec hne hsplit hpa hpb hbad
    exact parse_pair_reject t a b m sec hne hsplit hpa hpb (by omega)
  · intro t a b c hh mm ss hne hsplit hpa hpb hpc hbad
    exact parse_triple_reject t a b c hh mm ss hne hsplit hpa hpb hpc (by omega)

/-- Witness for C2 (amended): concrete instances of each clause — an
out-of-range `HH:MM:SS` minute field, an accepted `MM:SS` input with
minutes over `59`, and negative components in each of the three
forms. -/
theorem C2_minute_range_amended_witness :
    parse_time_input "05:99:00" = Except.error "Hours must be >= 0; minutes, seconds between 0-59"
  ∧ parse_time_input "61:30" = Except.ok 3690
  ∧ parse_time_input "-3" = Except.error "Minutes must be >= 0"
  ∧ parse_time_input "5:-3" = Except.error "Minutes must be >= 0 and seconds between 0-59"
  ∧ parse_time_input "-1:2:3" = Except.error "Hours must be >= 0; minutes, seconds between 0-59" := by
  have h := C2_minute_range_amended
  refine ⟨h.1 "05:99:00" (['0', '5']) (['9', '9']) (['0', '0']) 5 99 0 (by decide)
      (by decide) (by decide) (by decide) (by decide) (by omega),
    h.2.1 "61:30" (['6', '1']) (['3', '0']) 61 30 (by decide) (by decide)
      (by decide) (by decide) (by decide) (by decide) (by decide),
    h.2.2.1 "-3" (['-', '3']) (-3) (by decide) (by decide) (by decide) (by decide),
    h.2.2.2.1 "5:-3" (['5']) (['-', '3']) 5 (-3) (by decide) (by decide)
      (by decide) (by decide) (by omega),
    h.2.2.2.2.1 "-1:2:3" (['-', '1']) (['2']) (['3']) (-1) 2 3 (by decide)
      (by decide) (by decide) (by decide) (by decide) (by omega)⟩

/-- Counterexample for C3: `"01:02:03"` is an `"HH:MM:SS"` input, yet
this source file's parser accepts it and returns `3723` instead of
signaling an input error. -/
theorem C3_counterexample :
    pySplitOn ':' (pyStrip "01:02:03".data) = [['0', '1'], ['0', '2'], ['0', '3']]
  ∧ parse_time_input "01:02:03" = Except.ok 3723 :=
  ⟨by decide, rfl⟩

/-- Claim C3 (amended): this source file's parser accepts the
`"HH:MM:SS"` form as well (returning `h * 3600 + m * 60 + s` when the
fields are in range, an input error when a field is out of range), and
it signals the format error exactly on (non-empty) inputs with four or
more colon-separated fields — never on a one-, two- or three-field
input. -/
theorem C3_hms_accepted_amended :
    (∀ (t : String) (a b c : List Char) (hh mm ss : Int),
       pyStrip t.data ≠ [] → pySplitOn ':' (pyStrip t.data) = [a, b, c] →
       pyInt a = some hh → pyInt b = some mm → pyInt c = some ss →
       0 ≤ hh → 0 ≤ mm → mm < 60 → 0 ≤ ss → ss < 60 →
       parse_time_input t = Except.ok (hh * 3600 + mm * 60 + ss))
  ∧ (∀ (t : String) (a b c : List Char) (hh mm ss : Int),
       pyStrip t.data ≠ [] → pySplitOn ':' (pyStrip t.data) = [a, b, c] →
       pyInt a = some hh → pyInt b = some mm → pyInt c = some ss →
       (hh < 0 ∨ ¬(0 ≤ mm ∧ mm < 60) ∨ ¬(0 ≤ ss ∧ ss < 60)) →
       parse_time_input t = Except.error "Hours must be >= 0; minutes, seconds between 0-59")
  ∧ (∀ t : String,
       parse_time_input t = Except.error "Invalid format; use M, MM:SS, or HH:MM:SS" ↔
       (pyStrip t.data ≠ [] ∧ 4 ≤ (pySplitOn ':' (pyStrip t.data)).length)) :=
  ⟨parse_triple_ok, parse_triple_reject, parse_format_error_iff⟩

/-- Witness for C3 (amended): concrete instances of each clause, with
the format-error characterisation applied in both directions at
`"1:2:3:4"`. -/
theorem C3_hms_accepted_amended_witness :
    parse_time_input "01:02:03" = Except.ok 3723
  ∧ parse_time_input "1:2:-3" = Except.error "Hours must be >= 0; minutes, seconds between 0-59"
  ∧ parse_time_input "1:2:3:4" = Except.error "Invalid format; use M, MM:SS, or HH:MM:SS"
  ∧ (pyStrip "1:2:3:4".data ≠ [] ∧ 4 ≤ (pySplitOn ':' (pyStrip "1:2:3:4".data)).length) := by
  have h := C3_hms_accepted_amended
  refine ⟨h.1 "01:02:03" (['0', '1']) (['0', '2']) (['0', '3']) 1 2 3 (by decide)
      (by decide) (by decide) (by decide) (by decide) (by decide) (by decide)
      (by decide) (by decide) (by decide),
    h.2.1 "1:2:-3" (['1']) (['2']) (['-', '3']) 1 2 (-3) (by decide) (by decide)
      (by decide) (by decide) (by decide) (by omega),
    (h.2.2 "1:2:3:4").mpr ⟨by decide, by decide⟩,
    (h.2.2 "1:2:3:4").mp rfl⟩

/-! ## Projection facts about the single-field wrappers -/

@[simp] theorem update_display_timer_seconds (s : AppState) : (update_display s).timer_seconds = s.timer_seconds := rfl
@[simp] theorem update_display_timer_running (s : AppState) : (update_display s).timer_running = s.timer_running := rfl
@[simp] theorem update_display_timer_job (s : AppState) : (update_display s).timer_job = s.timer_job := rfl
@[simp] theorem update_display_stopwatch_seconds (s : AppState) : (update_display s).stopwatch_seconds = s.stopwatch_seconds := rfl
@[simp] theorem update_display_stopwatch_running (s : AppState) : (update_display s).stopwatch_running = s.stopwatch_running := rfl
@[simp] theorem update_display_stopwatch_job (s : AppState) : (update_display s).stopwatch_job = s.stopwatch_job := rfl
@[simp] theorem update_display_mode (s : AppState) : (update_display s).mode = s.mode := rfl
@[simp] theorem update_display_entry (s : AppState) : (update_display s).entry = s.entry := rfl
@[simp] theorem update_display_entry_enabled (s : AppState) : (update_display s).entry_enabled = s.entry_enabled := rfl
@[simp] theorem update_display_input_label (s : AppState) : (update_display s).input_label = s.input_label := rfl
@[simp] theorem update_display_notifications (s : AppState) : (update_display s).notifications = s.notifications := rfl
@[simp] theorem update_display_error_log (s : AppState) : (update_display s).error_log = s.error_log := rfl

@[simp] theorem schedule_timer_tick_timer_seconds (s : AppState) : (schedule_timer_tick s).timer_seconds = s.timer_seconds := rfl
@[simp] theorem schedule_timer_tick_timer_running (s : AppState) : (schedule_timer_tick s).timer_running = s.timer_running := rfl
@[simp] theorem schedule_timer_tick_stopwatch_seconds (s : AppState) : (schedule_timer_tick s).stopwatch_seconds = s.stopwatch_seconds := rfl
@[simp] theorem schedule_timer_tick_stopwatch_running (s : AppState) : (schedule_timer_tick s).stopwatch_running = s.stopwatch_running := rfl
@[simp] theorem schedule_timer_tick_stopwatch_job (s : AppState) : (schedule_timer_tick s).stopwatch_job = s.stopwatch_job := rfl
@[simp] theorem schedule_timer_tick_mode (s : AppState) : (schedule_timer_tick s).mode = s.mode := rfl
@[simp] theorem schedule_timer_tick_entry (s : AppState) : (schedule_timer_tick s).entry = s.entry := rfl
@[simp] theorem schedule_timer_tick_entry_enabled (s : AppState) : (schedule_timer_tick s).entry_enabled = s.entry_enabled := rfl
@[simp] theorem schedule_timer_tick_input_label (s : AppState) : (schedule_timer_tick s).input_label = s.input_label := rfl
@[simp] theorem schedule_timer_tick_display (s : AppState) : (schedule_timer_tick s).display = s.display := rfl
@[simp] theorem schedule_timer_tick_notifications (s : AppState) : (schedule_timer_tick s).notifications = s.notifications := rfl
@[simp] theorem schedule_timer_tick_error_log (s : AppState) : (schedule_timer_tick s).error_log = s.error_log := rfl

@[simp] theorem schedule_stopwatch_tick_timer_seconds (s : AppState) : (schedule_stopwatch_tick s).timer_seconds = s.timer_seconds := rfl
@[simp] theorem schedule_stopwatch_tick_timer_running (s : AppState) : (schedule_stopwatch_tick s).timer_running = s.timer_running := rfl
@[simp] theorem schedule_stopwatch_tick_timer_job (s : AppState) : (schedule_stopwatch_tick s).timer_job = s.timer_job := rfl
@[simp] theorem schedule_stopwatch_tick_stopwatch_seconds (s : AppState) : (schedule_stopwatch_tick s).stopwatch_seconds = s.stopwatch_seconds := rfl
@[simp] theorem schedule_stopwatch_tick_stopwatch_running (s : AppState) : (schedule_stopwatch_tick s).stopwatch_running = s.stopwatch_running := rfl
@[simp] theorem schedule_stopwatch_tick_mode (s : AppState) : (schedule_stopwatch_tick s).mode = s.mode := rfl
@[simp] theorem schedule_stopwatch_tick_entry (s : AppState) : (schedule_stopwatch_tick s).entry = s.entry := rfl
@[simp] theorem schedule_stopwatch_tick_entry_enabled (s : AppState) : (schedule_stopwatch_tick s).entry_enabled = s.entry_enabled := rfl
@[simp] theorem schedule_stopwatch_tick_input_label (s : AppState) : (schedule_stopwatch_tick s).input_label = s.input_label := rfl
@[simp] theorem schedule_stopwatch_tick_display (s : AppState) : (schedule_stopwatch_tick s).display = s.display := rfl
@[simp] theorem schedule_stopwatch_tick_notifications (s : AppState) : (schedule_stopwatch_tick s).notifications = s.notifications := rfl
@[simp] theorem schedule_stopwatch_tick_error_log (s : AppState) : (schedule_stopwatch_tick s).error_log = s.error_log := rfl

@[simp] theorem notify_finished_timer_seconds (s : AppState) : (notify_finished s).timer_seconds = s.timer_seconds := rfl
@[simp] theorem notify_finished_timer_running (s : AppState) : (notify_finished s).timer_running = s.timer_running := rfl
@[simp] theorem notify_finished_timer_job (s : AppState) : (notify_finished s).timer_job = s.timer_job := rfl
@[simp] theorem notify_finished_stopwatch_seconds (s : AppState) : (notify_finished s).stopwatch_seconds = s.stopwatch_seconds := rfl
@[simp] theorem notify_finished_stopwatch_running (s : AppState) : (notify_finished s).stopwatch_running = s.stopwatch_running := rfl
@[simp] theorem notify_finished_stopwatch_job (s : AppState) : (notify_finished s).stopwatch_job = s.stopwatch_job := rfl
@[simp] theorem notify_finished_mode (s : AppState) : (notify_finished s).mode = s.mode := rfl
@[simp] theorem notify_finished_entry (s : AppState) : (notify_finished s).entry = s.entry := rfl
@[simp] theorem notify_finished_entry_enabled (s : AppState) : (notify_finished s).entry_enabled = s.entry_enabled := rfl
@[simp] theorem notify_finished_input_label (s : AppState) : (notify_finished s).input_label = s.input_label := rfl
@[simp] theorem notify_finished_display (s : AppState) : (notify_finished s).display = s.display := rfl
@[simp] theorem notify_finished_error_log (s : AppState) : (notify_finished s).error_log = s.error_log := rfl

@[simp] theorem schedule_timer_tick_timer_job (s : AppState) : (schedule_timer_tick s).timer_job = true := rfl
@[simp] theorem schedule_stopwatch_tick_stopwatch_job (s : AppState) : (schedule_stopwatch_tick s).stopwatch_job = true := rfl
@[simp] theorem notify_finished_notifications (s : AppState) : (notify_finished s).notifications = s.notifications + 1 := rfl

/-! ## Frame facts about the state transformers -/

theorem pause_timer_running_false (s : AppState) :
    (pause_timer s).timer_running = false := by
  unfold pause_timer
  split
  · rfl
  · rename_i hh
    simpa using hh

theorem pause_timer_seconds (s : AppState) :
    (pause_timer s).timer_seconds = s.timer_seconds := by
  unfold pause_timer
  split <;> rfl

theorem pause_stopwatch_running_false (s : AppState) :
    (pause_stopwatch s).stopwatch_running = false := by
  unfold pause_stopwatch
  split
  · rfl
  · rename_i hh
    simpa using hh

theorem pause_stopwatch_seconds (s : AppState) :
    (pause_stopwatch s).stopwatch_seconds = s.stopwatch_seconds := by
  unfold pause_stopwatch
  split <;> rfl

theorem reset_timer_spec (s : AppState) :
    (reset_timer s).timer_seconds = 0 ∧ (reset_timer s).timer_running = false := by
  unfold reset_timer
  split
  · exact ⟨by simp, by simp [pause_timer_running_false]⟩
  · exact ⟨rfl, pause_timer_running_false s⟩

theorem reset_stopwatch_spec (s : AppState) :
    (reset_stopwatch s).stopwatch_seconds = 0 ∧
    (reset_stopwatch s).stopwatch_running = false := by
  unfold reset_stopwatch
  split
  · exact ⟨by simp, by simp [pause_stopwatch_running_false]⟩
  · exact ⟨rfl, pause_stopwatch_running_false s⟩

theorem tick_timer_not_running (s : AppState) (h : s.timer_running = false) :
    tick_timer s = s := by
  unfold tick_timer
  rw [if_pos h]

theorem tick_stopwatch_not_running (s : AppState) (h : s.stopwatch_running = false) :
    tick_stopwatch s = s := by
  unfold tick_stopwatch
  rw [if_pos h]

/-! ## The countdown invariant holds in every reachable state -/

theorem timerInv_congr {s t : AppState} (hsec : t.timer_seconds = s.timer_seconds)
    (hrun : t.timer_running = s.timer_running) (h : TimerInv s) : TimerInv t := by
  unfold TimerInv at *
  rw [hsec, hrun]
  exact h

theorem timerInv_start_timer_go (s : AppState) (hrun : s.timer_running = false)
    (h0 : 0 ≤ s.timer_seconds) : TimerInv (start_timer_go s) := by
  unfold start_timer_go
  split
  · exact ⟨h0, fun hh => by rw [hrun] at hh; cases hh⟩
  · rename_i hgt
    constructor
    · show 0 ≤ s.timer_seconds
      omega
    · intro _
      show 1 ≤ s.timer_seconds
      omega

theorem timerInv_start_timer (s : AppState) (h : TimerInv s) :
    TimerInv (start_timer s) := by
  unfold start_timer
  split
  · exact h
  · rename_i hrun
    have hrun' : s.timer_running = false := by simpa using hrun
    split
    · rcases hp : parse_time_input s.entry with msg | v
      · exact timerInv_congr rfl rfl h
      · have hv := parse_ok_nonneg s.entry v hp
        exact timerInv_start_timer_go { s with timer_seconds := v } hrun' hv
    · exact timerInv_start_timer_go s hrun' h.1

theorem timerInv_tick_timer (s : AppState) (h : TimerInv s) :
    TimerInv (tick_timer s) := by
  unfold tick_timer
  split
  · exact h
  split
  · constructor
    · show (0 : Int) ≤ 0
      omega
    · intro hh
      rw [show (notify_finished (update_display
          { s with timer_seconds := 0, timer_running := false })).timer_running = false
        from rfl] at hh
      cases hh
  · rename_i hrun hgt
    constructor
    · show 0 ≤ s.timer_seconds - 1
      omega
    · intro _
      show 1 ≤ s.timer_seconds - 1
      omega

theorem timerInv_pause_timer (s : AppState) (h : TimerInv s) :
    TimerInv (pause_timer s) := by
  refine ⟨?_, fun hh => ?_⟩
  · rw [pause_timer_seconds]
    exact h.1
  · rw [pause_timer_running_false] at hh
    cases hh

theorem timerInv_reset_timer (s : AppState) : TimerInv (reset_timer s) := by
  obtain ⟨h1, h2⟩ := reset_timer_spec s
  exact ⟨by rw [h1], fun hh => by rw [h2] at hh; cases hh⟩

theorem timerInv_start_stopwatch (s : AppState) (h : TimerInv s) :
    TimerInv (start_stopwatch s) := by
  unfold start_stopwatch
  split
  · exact h
  · exact timerInv_congr (by simp) (by simp) h

theorem timerInv_tick_stopwatch (s : AppState) (h : TimerInv s) :
    TimerInv (tick_stopwatch s) := by
  unfold tick_stopwatch
  split
  · exact h
  · exact timerInv_congr (by simp) (by simp) h

theorem timerInv_pause_stopwatch (s : AppState) (h : TimerInv s) :
    TimerInv (pause_stopwatch s) := by
  unfold pause_stopwatch
  split
  · exact timerInv_congr rfl rfl h
  · exact h

theorem pause_stopwatch_timer_fields (s : AppState) :
    (pause_stopwatch s).timer_seconds = s.timer_seconds ∧
    (pause_stopwatch s).timer_running = s.timer_running := by
  unfold pause_stopwatch
  split <;> exact ⟨rfl, rfl⟩

theorem timerInv_reset_stopwatch (s : AppState) (h : TimerInv s) :
    TimerInv (reset_stopwatch s) := by
  obtain ⟨hts, htr⟩ := pause_stopwatch_timer_fields s
  unfold reset_stopwatch
  split
  · exact timerInv_congr (by simp [hts]) (by simp [htr]) h
  · exact timerInv_congr hts htr h

theorem timerInv_select_mode (m : Mode) (s : AppState) (h : TimerInv s) :
    TimerInv (select_mode m s) := by
  unfold select_mode switch_mode
  split
  · exact timerInv_congr (by simp) (by simp) h
  · exact timerInv_congr (by simp) (by simp) h

theorem timerInv_step (e : Event) (s : AppState) (h : TimerInv s) :
    TimerInv (step e s) := by
  cases e with
  | pressStart =>
    simp only [step, start]
    split
    · exact timerInv_start_timer s h
    · exact timerInv_start_stopwatch s h
  | pressPause =>
    simp only [step, pause]
    split
    · exact timerInv_pause_timer s h
    · exact timerInv_pause_stopwatch s h
  | pressReset =>
    simp only [step, reset]
    split
    · exact timerInv_reset_timer s
    · exact timerInv_reset_stopwatch s h
  | selectMode m =>
    simp only [step]
    exact timerInv_select_mode m s h
  | setEntry t =>
    simp only [step]
    exact timerInv_congr rfl rfl h
  | timerTick =>
    simp only [step]
    exact timerInv_tick_timer s h
  | stopwatchTick =>
    simp only [step]
    exact timerInv_tick_stopwatch s h

/-- Every reachable state satisfies the countdown invariant: the timer
counter is non-negative, and at least one whenever the timer runs. -/
theorem reachable_timerInv (s : AppState) (h : Reachable s) : TimerInv s := by
  induction h with
  | init => exact ⟨by decide, by decide⟩
  | next e _ ih => exact timerInv_step e _ ih

/-- Replacing the timer counter by its current value is the identity. -/
theorem set_timer_seconds_self (s : AppState) (h : s.timer_seconds = 0) :
    ({ s with timer_seconds := 0 } : AppState) = s := by
  cases s
  simp_all

/-- Claim C4: in every reachable state with the countdown running, one
timer tick decrements the counter by exactly one; when the counter
thereby reaches zero it is set to exactly zero, the running flag
becomes false, and the completion notification fires exactly once (a
further tick is a no-op and notifies nobody); otherwise the tick
reschedules itself and no notification fires. -/
theorem C4_tick_behavior (s : AppState) (hr : Reachable s)
    (hrun : s.timer_running = true) :
    (tick_timer s).timer_seconds = s.timer_seconds - 1
  ∧ (s.timer_seconds - 1 = 0 →
        (tick_timer s).timer_seconds = 0
      ∧ (tick_timer s).timer_running = false
      ∧ (tick_timer s).notifications = s.notifications + 1
      ∧ tick_timer (tick_timer s) = tick_timer s)
  ∧ (s.timer_seconds - 1 ≠ 0 →
        (tick_timer s).timer_running = true
      ∧ (tick_timer s).timer_job = true
      ∧ (tick_timer s).notifications = s.notifications) := by
  have h1 : 1 ≤ s.timer_seconds := (reachable_timerInv s hr).2 hrun
  unfold tick_timer
  rw [hrun, if_neg (by simp)]
  by_cases hz : s.timer_seconds - 1 ≤ 0
  · rw [if_pos hz]
    refine ⟨by simp; omega, fun _ => ⟨by simp, by simp, by simp, ?_⟩,
      fun hne => absurd (by omega : s.timer_seconds - 1 = 0) hne⟩
    exact tick_timer_not_running _ (by simp)
  · rw [if_neg hz]
    exact ⟨by simp, fun h0 => absurd h0 (by omega),
      fun _ => ⟨by simp [hrun], by simp, by simp⟩⟩

/-- Witness for C4: from the initial state, enter `"0:01"` and press
Start; the tick that follows finishes the countdown. -/
theorem C4_tick_behavior_witness :
    (tick_timer (step Event.pressStart (step (Event.setEntry "0:01") init_state))).timer_seconds = 0
  ∧ (tick_timer (step Event.pressStart (step (Event.setEntry "0:01") init_state))).timer_running = false
  ∧ (tick_timer (step Event.pressStart (step (Event.setEntry "0:01") init_state))).notifications
      = (step Event.pressStart (step (Event.setEntry "0:01") init_state)).notifications + 1
  ∧ tick_timer (tick_timer (step Event.pressStart (step (Event.setEntry "0:01") init_state)))
      = tick_timer (step Event.pressStart (step (Event.setEntry "0:01") init_state)) := by
  have h := C4_tick_behavior (step Event.pressStart (step (Event.setEntry "0:01") init_state))
    (Reachable.next Event.pressStart (Reachable.next (Event.setEntry "0:01") Reachable.init))
    (by decide)
  exact h.2.1 (by decide)

/-- Claim C5: Start on the countdown timer parses input only when the
counter is zero; on a parse failure the error is reported and the
timer state (counter, running flag, pending callback) is unchanged; a
parsed duration of zero leaves the whole state unchanged; with a
positive counter Start never parses (the entry cannot influence the
counter and no error can be reported). -/
theorem C5_start_idle (s : AppState) (hnr : s.timer_running = false) :
    (∀ msg, s.timer_seconds = 0 → parse_time_input s.entry = Except.error msg →
        (start_timer s).timer_seconds = 0
      ∧ (start_timer s).timer_running = false
      ∧ (start_timer s).timer_job = s.timer_job
      ∧ (start_timer s).error_log = s.error_log ++ [msg])
  ∧ (s.timer_seconds = 0 → parse_time_input s.entry = Except.ok 0 →
      start_timer s = s)
  ∧ (0 < s.timer_seconds →
        (start_timer s).timer_seconds = s.timer_seconds
      ∧ (start_timer s).error_log = s.error_log) := by
  have hnr' : ¬ s.timer_running = true := by simp [hnr]
  refine ⟨?_, ?_, ?_⟩
  · intro msg hz hp
    unfold start_timer
    rw [if_neg hnr', if_pos (by omega : s.timer_seconds ≤ 0), hp]
    refine ⟨?_, ?_, ?_, ?_⟩ <;> simp [hz, hnr]
  · intro hz hp
    unfold start_timer
    rw [if_neg hnr', if_pos (by omega : s.timer_seconds ≤ 0), hp]
    show start_timer_go { s with timer_seconds := 0 } = s
    unfold start_timer_go
    rw [if_pos (by simp : ({ s with timer_seconds := (0 : Int) } : AppState).timer_seconds ≤ 0)]
    exact set_timer_seconds_self s hz
  · intro hpos
    unfold start_timer
    rw [if_neg hnr', if_neg (by omega)]
    unfold start_timer_go
    rw [if_neg (by omega)]
    exact ⟨by simp, by simp⟩

/-- Witness for C5: a malformed entry, a zero entry, and a resume from
a positive counter, each from a concrete idle state. -/
theorem C5_start_idle_witness :
    ((start_timer { init_state with entry := "abc" }).timer_seconds = 0
      ∧ (start_timer { init_state with entry := "abc" }).timer_running = false
      ∧ (start_timer { init_state with entry := "abc" }).timer_job
          = ({ init_state with entry := "abc" } : AppState).timer_job
      ∧ (start_timer { init_state with entry := "abc" }).error_log
          = ({ init_state with entry := "abc" } : AppState).error_log
            ++ ["invalid literal for int with base 10"])
  ∧ start_timer { init_state with entry := "0" } = { init_state with entry := "0" }
  ∧ ((start_timer { init_state with timer_seconds := 5 }).timer_seconds = 5
      ∧ (start_timer { init_state with timer_seconds := 5 }).error_log
          = ({ init_state with timer_seconds := 5 } : AppState).error_log) := by
  refine ⟨(C5_start_idle { init_state with entry := "abc" } (by decide)).1
      "invalid literal for int with base 10" (by decide) rfl,
    (C5_start_idle { init_state with entry := "0" } (by decide)).2.1 (by decide) rfl,
    ?_⟩
  have h := (C5_start_idle { init_state with timer_seconds := 5 } (by decide)).2.2
    (by decide)
  exact h

/-- Claim C6: pausing a running countdown clears the running flag and
leaves the counter unchanged, and a subsequent Start with the counter
still positive resumes with exactly the remaining seconds from the
moment of pause. -/
theorem C6_pause_resume (s : AppState) (_hr : s.timer_running = true) :
    (pause_timer s).timer_running = false
  ∧ (pause_timer s).timer_seconds = s.timer_seconds
  ∧ (0 < s.timer_seconds →
        (start_timer (pause_timer s)).timer_seconds = s.timer_seconds
      ∧ (start_timer (pause_timer s)).timer_running = true) := by
  refine ⟨pause_timer_running_false s, pause_timer_seconds s, fun hpos => ?_⟩
  unfold start_timer
  rw [if_neg (by simp [pause_timer_running_false])]
  rw [if_neg (by rw [pause_timer_seconds]; omega)]
  unfold start_timer_go
  rw [if_neg (by rw [pause_timer_seconds]; omega)]
  exact ⟨by simp [pause_timer_seconds], by simp⟩

/-- Witness for C6: pause-then-resume from the started default state. -/
theorem C6_pause_resume_witness :
    (pause_timer (step Event.pressStart init_state)).timer_running = false
  ∧ (pause_timer (step Event.pressStart init_state)).timer_seconds
      = (step Event.pressStart init_state).timer_seconds
  ∧ (start_timer (pause_timer (step Event.pressStart init_state))).timer_seconds
      = (step Event.pressStart init_state).timer_seconds
  ∧ (start_timer (pause_timer (step Event.pressStart init_state))).timer_running = true := by
  have h := C6_pause_resume (step Event.pressStart init_state) (by decide)
  exact ⟨h.1, h.2.1, (h.2.2 (by decide)).1, (h.2.2 (by decide)).2⟩

/-- Claim C7: in every state, Reset zeroes the corresponding counter,
clears its running flag, and halts ticking (a tick after a reset is a
no-op), for both the countdown timer and the stopwatch. -/
theorem C7_reset_zeroes_and_halts (s : AppState) :
    (reset_timer s).timer_seconds = 0
  ∧ (reset_timer s).timer_running = false
  ∧ tick_timer (reset_timer s) = reset_timer s
  ∧ (reset_stopwatch s).stopwatch_seconds = 0
  ∧ (reset_stopwatch s).stopwatch_running = false
  ∧ tick_stopwatch (reset_stopwatch s) = reset_stopwatch s := by
  obtain ⟨ht1, ht2⟩ := reset_timer_spec s
  obtain ⟨hs1, hs2⟩ := reset_stopwatch_spec s
  exact ⟨ht1, ht2, tick_timer_not_running _ ht2, hs1, hs2,
    tick_stopwatch_not_running _ hs2⟩

/-- Claim C8: switching the mode (to either value, from any state)
leaves both counters, both running flags, both pending-callback slots,
the entry text, the notification count and the error log unchanged;
only the input row and the display are touched. -/
theorem C8_mode_switch_frame (s : AppState) (m : Mode) :
    (select_mode m s).timer_seconds = s.timer_seconds
  ∧ (select_mode m s).timer_running = s.timer_running
  ∧ (select_mode m s).timer_job = s.timer_job
  ∧ (select_mode m s).stopwatch_seconds = s.stopwatch_seconds
  ∧ (select_mode m s).stopwatch_running = s.stopwatch_running
  ∧ (select_mode m s).stopwatch_job = s.stopwatch_job
  ∧ (select_mode m s).entry = s.entry
  ∧ (select_mode m s).notifications = s.notifications
  ∧ (select_mode m s).error_log = s.error_log := by
  unfold select_mode switch_mode
  split <;> refine ⟨?_, ?_, ?_, ?_, ?_, ?_, ?_, ?_, ?_⟩ <;> simp

/-- Claim C9: the display renderer shows the mode-selected counter `n`
clamped to `max n 0` and formatted as zero-padded `HH:MM:SS` with
hours `n / 3600`, minutes `n % 3600 / 60` and seconds `n % 60`; a
negative counter renders as `"00:00:00"`; every field below `100`
renders as exactly two digits; the renderer changes no counter and no
running flag. -/
theorem C9_display_renders_clamped_hms (s : AppState) :
    (update_display s).display =
      pad2 ((max (if s.mode = Mode.timer then s.timer_seconds else s.stopwatch_seconds) 0).toNat / 3600)
      ++ ":" ++
      pad2 ((max (if s.mode = Mode.timer then s.timer_seconds else s.stopwatch_seconds) 0).toNat % 3600 / 60)
      ++ ":" ++
      pad2 ((max (if s.mode = Mode.timer then s.timer_seconds else s.stopwatch_seconds) 0).toNat % 60)
  ∧ ((if s.mode = Mode.timer then s.timer_seconds else s.stopwatch_seconds) < 0 →
      (update_display s).display = "00:00:00")
  ∧ (∀ k : Nat, k < 100 → (pad2 k).length = 2)
  ∧ (update_display s).timer_seconds = s.timer_seconds
  ∧ (update_display s).stopwatch_seconds = s.stopwatch_seconds
  ∧ (update_display s).timer_running = s.timer_running
  ∧ (update_display s).stopwatch_running = s.stopwatch_running := by
  refine ⟨?_, ?_, by decide, rfl, rfl, rfl, rfl⟩
  · show render_hms (if s.mode = Mode.timer then s.timer_seconds else s.stopwatch_seconds) = _
    unfold render_hms
    rw [Nat.mod_mod_of_dvd _ (by norm_num : (60 : Nat) ∣ 3600)]
  · intro hn
    show render_hms (if s.mode = Mode.timer then s.timer_seconds else s.stopwatch_seconds) = _
    unfold render_hms
    rw [max_eq_right (le_of_lt hn)]
    rfl

/-- Witness for C9: a negative timer counter renders as zero, and a
small field pads to two digits. -/
theorem C9_display_renders_clamped_hms_witness :
    (update_display { init_state with timer_seconds := -5 }).display = "00:00:00"
  ∧ (pad2 7).length = 2 := by
  have h := C9_display_renders_clamped_hms { init_state with timer_seconds := -5 }
  exact ⟨h.2.1 (by decide), h.2.2.1 7 (by decide)⟩

/-- Claim C10: pressing Start while the corresponding counter is
already running is a complete no-op for both the countdown timer and
the stopwatch: the state (counters, flags, pending-callback slots) is
returned unchanged, so no extra tick callback is scheduled. -/
theorem C10_start_while_running_noop (s : AppState) :
    (s.timer_running = true → start_timer s = s)
  ∧ (s.stopwatch_running = true → start_stopwatch s = s) := by
  constructor
  · intro h
    unfold start_timer
    rw [if_pos h]
  · intro h
    unfold start_stopwatch
    rw [if_pos h]

/-- Witness for C10: a second Start on the started default timer, and
a Start on a running stopwatch state. -/
theorem C10_start_while_running_noop_witness :
    start_timer (step Event.pressStart init_state) = step Event.pressStart init_state
  ∧ start_stopwatch { init_state with stopwatch_running := true }
      = { init_state with stopwatch_running := true } :=
  ⟨(C10_start_while_running_noop (step Event.pressStart init_state)).1 (by decide),
   (C10_start_while_running_noop { init_state with stopwatch_running := true }).2 (by decide)⟩

end TimerApp
